import Mathlib

/-!
Verification of the type-level contract declared in
`src/4/lib/associations/belongs-to.d.ts`.

The source file is a TypeScript declaration file: it contains no executable
logic, only interface shapes and call signatures.  We embed that declarative
surface shallowly: a TypeScript type is a `TSType`, an interface member is a
`TSField`, an interface declaration is an `InterfaceDecl` (name, `extends`
clause, own members), and a callable interface is a `CallSignature`.  TSField
resolution through `extends` clauses and assignability of arguments to
parameters are executable functions, so every claim can be evaluated on
concrete inputs.

The interfaces `AssociationOptions`, `SaveOptions` and `CreateOptions` are
imported by the source file from `./base` and `../model`, which are not part
of this repository fragment; their member lists are therefore parameters
(arbitrary field lists) of the environment `tsEnv`.
-/

/-- The TypeScript types that occur in `belongs-to.d.ts`.
`optionalized t` is `Partial<t>` in the source (the type with every member
of `t` made optional); `tvar` is a type variable such as `TInstance`;
`ref` is a reference to a named interface. -/
inductive TSType where
  | string : TSType
  | boolean : TSType
  | dataType : TSType
  | voidType : TSType
  | nullType : TSType
  | undefinedType : TSType
  | tvar : String → TSType
  | union : TSType → TSType → TSType
  | promise : TSType → TSType
  | optionalized : TSType → TSType
  | ref : String → TSType
deriving DecidableEq, BEq

/-- A member of a TypeScript interface: its name, whether it is declared
with `?` (optional), and its declared type. -/
structure TSField where
  name : String
  optional : Bool
  type : TSType
deriving DecidableEq, BEq

/-- A parameter of a call signature: name, optionality (`?`), declared type. -/
structure Param where
  name : String
  optional : Bool
  type : TSType
deriving DecidableEq, BEq

/-- A callable interface shape: parameter list and return type. -/
structure CallSignature where
  params : List Param
  ret : TSType
deriving DecidableEq, BEq

/-- A TypeScript interface declaration: its name, the names in its
`extends` clause, and the members declared in its own body. -/
structure InterfaceDecl where
  name : String
  bases : List String
  ownFields : List TSField
deriving DecidableEq, BEq

/-- Assignability of one type to another, as it applies to this declaration
file.  The repository pins no `tsconfig` enabling `strictNullChecks`, so the
compiler default applies, under which `null` and `undefined` are assignable
to every type (and the source's own documentation relies on this: "Pass null
or undefined to remove the association").  A union is assignable to a target
when each branch is; a type is assignable to a union when it is assignable
to some branch; otherwise assignability is type identity.
`assignableAtom` handles a non-union, non-nullish source type. -/
def assignableAtom (s : TSType) : TSType → Bool
  | .union a b => assignableAtom s a || assignableAtom s b
  | t => s == t

/-- Assignability of a source type to a target, continued: `null` and
`undefined` go anywhere, a union source needs every branch assignable,
and any other source is checked against the target by `assignableAtom`. -/
def assignable : TSType → TSType → Bool
  | .nullType, _ => true
  | .undefinedType, _ => true
  | .union a b, t => assignable a t && assignable b t
  | s, t => assignableAtom s t

/-- Does an argument list fit a parameter list?  Arguments are matched
positionally; parameters left without an argument must be optional;
surplus arguments are rejected. -/
def argsMatch : List Param → List TSType → Bool
  | ps, [] => ps.all (fun p => p.optional)
  | [], _ :: _ => false
  | p :: ps, a :: rest => assignable a p.type && argsMatch ps rest

/-- A call with the given argument types is within the declared signature. -/
def callAccepts (sig : CallSignature) (args : List TSType) : Bool :=
  argsMatch sig.params args

/-- `Partial<T>` at the level of member lists: every member made optional. -/
def optionalizeFields (fs : List TSField) : List TSField :=
  fs.map (fun f => { f with optional := true })

/-- A record literal supplying the listed (name, type) pairs is assignable
to an interface with the given resolved members: every supplied entry must
name a member and have an assignable type, and every non-optional member
must be supplied. -/
def recordAssignable (supplied : List (String × TSType)) (fields : List TSField) : Bool :=
  supplied.all (fun s => fields.any (fun f => f.name == s.1 && assignable s.2 f.type)) &&
  fields.all (fun f => f.optional || supplied.any (fun s => s.1 == f.name))

/-- The interface declarations relevant to `belongs-to.d.ts`.  The first
three are the imported interfaces whose bodies live outside this repository
fragment, so their member lists `assocF`, `saveF`, `createF` are arbitrary;
the remaining four transcribe the declarations of the source file. -/
def tsEnv (assocF saveF createF : List TSField) : List InterfaceDecl :=
  [ ⟨"AssociationOptions", [], assocF⟩,
    ⟨"SaveOptions", [], saveF⟩,
    ⟨"CreateOptions", [], createF⟩,
    ⟨"BelongsToOptions", ["AssociationOptions"],
      [⟨"targetKey", true, .string⟩, ⟨"keyType", true, .dataType⟩]⟩,
    ⟨"BelongsToGetAssociationMixinOptions", [],
      [⟨"scope", true, .union .string .boolean⟩]⟩,
    ⟨"BelongsToSetAssociationMixinOptions", ["SaveOptions"],
      [⟨"save", true, .boolean⟩]⟩,
    ⟨"BelongsToCreateAssociationMixinOptions",
      ["CreateOptions", "BelongsToSetAssociationMixinOptions"], []⟩ ]

/-- Look an interface up by name. -/
def lookupDecl (env : List InterfaceDecl) (n : String) : Option InterfaceDecl :=
  env.find? (fun d => d.name == n)

/-- The resolved member list of an interface: the members of each base in
the `extends` clause, in order, followed by the interface's own members.
`fuel` bounds the resolution depth (the declarations here need depth 3). -/
def resolveFields (env : List InterfaceDecl) : Nat → String → List TSField
  | 0, _ => []
  | Nat.succ fuel, n =>
    match lookupDecl env n with
    | none => []
    | some d => (d.bases.map (resolveFields env fuel)).flatten ++ d.ownFields

/-- `BelongsToGetAssociationMixin<TInstance>`:
`(options?: BelongsToGetAssociationMixinOptions): Promise<TInstance>`. -/
def getAssociationMixin : CallSignature :=
  { params := [⟨"options", true, .ref "BelongsToGetAssociationMixinOptions"⟩],
    ret := .promise (.tvar "TInstance") }

/-- `BelongsToSetAssociationMixin<TInstance, TPrimaryKey>`:
`(newAssociation?: TInstance | TPrimaryKey,
  options?: BelongsToSetAssociationMixinOptions<TInstance>): Promise<void>`. -/
def setAssociationMixin : CallSignature :=
  { params :=
      [⟨"newAssociation", true, .union (.tvar "TInstance") (.tvar "TPrimaryKey")⟩,
       ⟨"options", true, .ref "BelongsToSetAssociationMixinOptions"⟩],
    ret := .promise .voidType }

/-- `BelongsToCreateAssociationMixin<TModel, TInstance>`:
`(values?: Partial<TInstance>,
  options?: BelongsToCreateAssociationMixinOptions<TModel, TInstance>): Promise<TInstance>`. -/
def createAssociationMixin : CallSignature :=
  { params :=
      [⟨"values", true, .optionalized (.tvar "TInstance")⟩,
       ⟨"options", true, .ref "BelongsToCreateAssociationMixinOptions"⟩],
    ret := .promise (.tvar "TInstance") }

/-- A TypeScript class declaration, as far as this file needs: name, type
parameters, super class with its type arguments, instance members, and
constructor parameters. -/
structure ClassDecl where
  name : String
  typeParams : List String
  superClass : Option (String × List String)
  members : List TSField
  ctorParams : List Param
deriving DecidableEq, BEq

/-- `class BelongsTo<TSource, TTarget> extends Association<TSource, TTarget>`
with member `accessors: SingleAssociationAccessors` and constructor
`(source: TSource, target: TTarget, options: BelongsToOptions)`. -/
def belongsToClass : ClassDecl :=
  { name := "BelongsTo",
    typeParams := ["TSource", "TTarget"],
    superClass := some ("Association", ["TSource", "TTarget"]),
    members := [⟨"accessors", false, .ref "SingleAssociationAccessors"⟩],
    ctorParams :=
      [⟨"source", false, .tvar "TSource"⟩,
       ⟨"target", false, .tvar "TTarget"⟩,
       ⟨"options", false, .ref "BelongsToOptions"⟩] }

/-- `export default BelongsTo;` -/
def defaultExport : String := "BelongsTo"

/-- C1: the resolved member list of `BelongsToCreateAssociationMixinOptions`
is exactly the union (concatenation) of the resolved members of
`CreateOptions` and of `BelongsToSetAssociationMixinOptions`, whatever the
members of the externally declared interfaces are, and its own body adds no
member of its own. -/
theorem createMixinOptions_union_of_create_and_set (assocF saveF createF : List TSField) :
    resolveFields (tsEnv assocF saveF createF) 3 "BelongsToCreateAssociationMixinOptions" =
      resolveFields (tsEnv assocF saveF createF) 3 "CreateOptions" ++
      resolveFields (tsEnv assocF saveF createF) 3 "BelongsToSetAssociationMixinOptions" ∧
    (lookupDecl (tsEnv assocF saveF createF) "BelongsToCreateAssociationMixinOptions").map
      InterfaceDecl.ownFields = some [] := by
  constructor
  · simp [resolveFields, tsEnv, lookupDecl]
  · simp [tsEnv, lookupDecl]

/-- C2: the set-association mixin's first parameter is the optional
`newAssociation?: TInstance | TPrimaryKey`, and a call passing a full
instance, a bare primary-key value, nothing at all, `null`, or `undefined`
as the first argument is within the declared signature — also when an
options record is passed as well. -/
theorem setMixin_first_argument_forms :
    setAssociationMixin.params =
      [⟨"newAssociation", true, .union (.tvar "TInstance") (.tvar "TPrimaryKey")⟩,
       ⟨"options", true, .ref "BelongsToSetAssociationMixinOptions"⟩] ∧
    callAccepts setAssociationMixin [.tvar "TInstance"] = true ∧
    callAccepts setAssociationMixin [.tvar "TPrimaryKey"] = true ∧
    callAccepts setAssociationMixin [] = true ∧
    callAccepts setAssociationMixin [.nullType] = true ∧
    callAccepts setAssociationMixin [.undefinedType] = true ∧
    callAccepts setAssociationMixin
      [.nullType, .ref "BelongsToSetAssociationMixinOptions"] = true ∧
    callAccepts setAssociationMixin
      [.undefinedType, .ref "BelongsToSetAssociationMixinOptions"] = true := by
  decide

/-- C3: the get-association mixin is callable with zero arguments or with
its options record, that record's only member is the optional
`scope?: string | boolean`, and the mixin returns `Promise<TInstance>`. -/
theorem getMixin_signature (assocF saveF createF : List TSField) :
    resolveFields (tsEnv assocF saveF createF) 3 "BelongsToGetAssociationMixinOptions" =
      [⟨"scope", true, .union .string .boolean⟩] ∧
    callAccepts getAssociationMixin [] = true ∧
    callAccepts getAssociationMixin [.ref "BelongsToGetAssociationMixinOptions"] = true ∧
    getAssociationMixin.ret = .promise (.tvar "TInstance") := by
  refine ⟨?_, by decide, by decide, rfl⟩
  simp [resolveFields, tsEnv, lookupDecl]

/-- C4: `BelongsToOptions` adds the optional `targetKey?: string` and
`keyType?: DataType` to the inherited association options, and — provided
every inherited member is optional — an options record supplying neither
field is assignable to it. -/
theorem belongsToOptions_fields_and_empty_record (assocF : List TSField)
    (h : ∀ f ∈ assocF, f.optional = true) (saveF createF : List TSField) :
    resolveFields (tsEnv assocF saveF createF) 3 "BelongsToOptions" =
      assocF ++ [⟨"targetKey", true, .string⟩, ⟨"keyType", true, .dataType⟩] ∧
    recordAssignable []
      (resolveFields (tsEnv assocF saveF createF) 3 "BelongsToOptions") = true := by
  have hres : resolveFields (tsEnv assocF saveF createF) 3 "BelongsToOptions" =
      assocF ++ [⟨"targetKey", true, .string⟩, ⟨"keyType", true, .dataType⟩] := by
    simp [resolveFields, tsEnv, lookupDecl]
  refine ⟨hres, ?_⟩
  rw [hres]
  simp [recordAssignable, List.all_append, List.all_eq_true]
  exact h

/-- Witness for C4 at the empty inherited member list. -/
theorem belongsToOptions_fields_and_empty_record_witness :
    resolveFields (tsEnv [] [] []) 3 "BelongsToOptions" =
      [⟨"targetKey", true, .string⟩, ⟨"keyType", true, .dataType⟩] ∧
    recordAssignable [] (resolveFields (tsEnv [] [] []) 3 "BelongsToOptions") = true :=
  belongsToOptions_fields_and_empty_record [] (by simp) [] []

/-- C5: `BelongsToSetAssociationMixinOptions` resolves to the inherited save
options followed by exactly one member of its own, the optional
`save?: boolean`. -/
theorem setMixinOptions_extends_save_options (assocF saveF createF : List TSField) :
    resolveFields (tsEnv assocF saveF createF) 3 "BelongsToSetAssociationMixinOptions" =
      saveF ++ [⟨"save", true, .boolean⟩] ∧
    (lookupDecl (tsEnv assocF saveF createF) "BelongsToSetAssociationMixinOptions").map
      InterfaceDecl.ownFields = some [⟨"save", true, .boolean⟩] := by
  constructor
  · simp [resolveFields, tsEnv, lookupDecl]
  · simp [tsEnv, lookupDecl]

/-- C6: the set-association mixin's declared return type is `Promise<void>`,
and it is `Promise<void>` for every argument list the signature accepts. -/
theorem setMixin_returns_promise_void :
    setAssociationMixin.ret = .promise .voidType ∧
    ∀ args : List TSType, callAccepts setAssociationMixin args = true →
      setAssociationMixin.ret = .promise .voidType :=
  ⟨rfl, fun _ _ => rfl⟩

/-- Witness for C6 at the empty argument list. -/
theorem setMixin_returns_promise_void_witness :
    callAccepts setAssociationMixin [] = true ∧
    setAssociationMixin.ret = .promise .voidType :=
  ⟨by decide, setMixin_returns_promise_void.2 [] (by decide)⟩

/-- C7: the create-association mixin takes an optional `Partial<TInstance>`
(under which every member is optional) and an optional options record, is
callable with zero, one or two arguments, and returns `Promise<TInstance>`,
not `Promise<void>`. -/
theorem createMixin_signature (fs : List TSField) :
    createAssociationMixin.params =
      [⟨"values", true, .optionalized (.tvar "TInstance")⟩,
       ⟨"options", true, .ref "BelongsToCreateAssociationMixinOptions"⟩] ∧
    callAccepts createAssociationMixin [] = true ∧
    callAccepts createAssociationMixin [.optionalized (.tvar "TInstance")] = true ∧
    callAccepts createAssociationMixin
      [.optionalized (.tvar "TInstance"), .ref "BelongsToCreateAssociationMixinOptions"] = true ∧
    (optionalizeFields fs).all (fun f => f.optional) = true ∧
    createAssociationMixin.ret = .promise (.tvar "TInstance") ∧
    createAssociationMixin.ret ≠ .promise .voidType := by
  refine ⟨rfl, by decide, by decide, by decide, ?_, rfl, by decide⟩
  simp [optionalizeFields, List.all_eq_true]

/-- C8: every constructor parameter of the `BelongsTo` class is required, so
a call with only `source` and `target` is outside the declared signature
while a call with all three arguments is inside it — even though both
members `BelongsToOptions` declares in its own body are optional. -/
theorem belongsTo_constructor_requires_options (assocF saveF createF : List TSField) :
    belongsToClass.ctorParams.all (fun p => !p.optional) = true ∧
    argsMatch belongsToClass.ctorParams [.tvar "TSource", .tvar "TTarget"] = false ∧
    argsMatch belongsToClass.ctorParams
      [.tvar "TSource", .tvar "TTarget", .ref "BelongsToOptions"] = true ∧
    (lookupDecl (tsEnv assocF saveF createF) "BelongsToOptions").map
      InterfaceDecl.ownFields =
      some [⟨"targetKey", true, .string⟩, ⟨"keyType", true, .dataType⟩] := by
  refine ⟨by decide, by decide, by decide, ?_⟩
  simp [tsEnv, lookupDecl]

/-- C9: the resolved members of `BelongsToCreateAssociationMixinOptions`
contain the `save?: boolean` flag, every inherited save option, and every
generic create option. -/
theorem createMixinOptions_carry_save_flag (assocF saveF createF : List TSField) :
    (⟨"save", true, .boolean⟩ : TSField) ∈
      resolveFields (tsEnv assocF saveF createF) 3 "BelongsToCreateAssociationMixinOptions" ∧
    saveF ⊆
      resolveFields (tsEnv assocF saveF createF) 3 "BelongsToCreateAssociationMixinOptions" ∧
    createF ⊆
      resolveFields (tsEnv assocF saveF createF) 3 "BelongsToCreateAssociationMixinOptions" := by
  have h : resolveFields (tsEnv assocF saveF createF) 3
      "BelongsToCreateAssociationMixinOptions" =
      createF ++ (saveF ++ [⟨"save", true, .boolean⟩]) := by
    simp [resolveFields, tsEnv, lookupDecl]
  rw [h]
  refine ⟨by simp, ?_, ?_⟩ <;> intro x hx <;> simp [hx]

/-- C10: the `BelongsTo` class extends `Association<TSource, TTarget>`,
declares the member `accessors: SingleAssociationAccessors`, and is the
module's default export. -/
theorem belongsTo_class_shape :
    belongsToClass.superClass = some ("Association", ["TSource", "TTarget"]) ∧
    belongsToClass.typeParams = ["TSource", "TTarget"] ∧
    (⟨"accessors", false, .ref "SingleAssociationAccessors"⟩ : TSField) ∈
      belongsToClass.members ∧
    defaultExport = belongsToClass.name :=
  ⟨rfl, rfl, by simp [belongsToClass], rfl⟩
